import Mathlib

/-!
Verification of the offline-capable data-synchronization layer of the
HeritagePlatform repository: the service-worker request classifier and its
cache tiers, the durable background-sync write queue for contribution
mutations, the contribution submission flow, and the offline bundle builder
with its query-signature manifest.

The definitions are a shallow embedding of the corresponding source code
(the service worker registration file and the explore / contribution Vue
components).  Third-party library behaviour (workbox strategies, the
background-sync queue replay loop, the cacheable-response gate) is not part
of the repository source; those parts are modelled from the specification
text and are marked as such in their doc comments.
-/

namespace HeritagePlatform

/-! ## Request model

A fetch event's request, as far as the service-worker route matchers
inspect it: method, mode, destination, and the parsed URL (hostname,
pathname, and the set of query-parameter names). -/

structure Url where
  hostname : String
  pathname : String
  /-- Names of the query parameters present (what searchParams.has sees). -/
  searchKeys : List String
deriving DecidableEq

structure Request where
  method : String
  mode : String
  destination : String
  url : Url
deriving DecidableEq

/-! ## String primitives

Kernel-computable embeddings of the JavaScript string operations the
source uses (startsWith, endsWith, split, trim), implemented structurally
over the character list of the string so that concrete instances evaluate
by decide. -/

/-- JavaScript s.startsWith(pre): pre is a prefix of s. -/
def strStartsWith (s pre : String) : Bool :=
  pre.data.isPrefixOf s.data

/-- JavaScript s.endsWith(suf): suf is a suffix of s. -/
def strEndsWith (s suf : String) : Bool :=
  suf.data.isSuffixOf s.data

/-- Splitting a character list at every occurrence of the separator c;
the accumulator holds the current segment reversed. -/
def splitCharAux (c : Char) : List Char → List Char → List (List Char)
  | [], acc => [acc.reverse]
  | x :: xs, acc =>
    if x = c then acc.reverse :: splitCharAux c xs []
    else splitCharAux c xs (x :: acc)

/-- JavaScript s.split(c) for a single-character separator. -/
def strSplitChar (s : String) (c : Char) : List String :=
  (splitCharAux c s.data []).map String.mk

/-- JavaScript s.trim(): strip whitespace from both ends. -/
def strTrim (s : String) : String :=
  String.mk (((s.data.dropWhile Char.isWhitespace).reverse.dropWhile
    Char.isWhitespace).reverse)

/-! ## Helpers from the service-worker source -/

/-- Source: apiResourceParts — split the pathname on slashes, drop empty
segments, find the first segment equal to v1, and return the segments
after it; null (none) when no v1 segment exists. -/
def apiResourceParts (pathname : String) : Option (List String) :=
  let parts := (strSplitChar pathname '/').filter (fun s => s ≠ "")
  match parts.findIdx? (fun s => s == "v1") with
  | none => none
  | some i => some (parts.drop (i + 1))

/-- Source: isUserDataPath — the static allow-list of user-identity path
prefixes that must bypass every cache. -/
def isUserDataPath (pathname : String) : Bool :=
  strStartsWith pathname "/api/v1/auth/" ||
  strStartsWith pathname "/api/v1/users/" ||
  strStartsWith pathname "/api/v1/notifications/"

/-- Source: the isListLike heuristic inside the API GET handler — list-like
when at most one resource segment follows v1, or a page query parameter is
present. -/
def isListLike (r : Request) : Bool :=
  ((apiResourceParts r.url.pathname).getD []).length ≤ 1 ||
    r.url.searchKeys.contains "page"

/-! ## Route classification

The service worker registers its routes in a fixed order and the router
uses the first matcher that accepts the request.  Registration order in the
source: navigation fallback, contribution queue, user-data network-only,
API GET handler (list / detail chosen inside the handler), images, map
tiles; an unmatched request passes straight to the network. -/

inductive RouteClass where
  | navigation
  | contributionQueue
  | userDataNetworkOnly
  | apiList
  | apiDetail
  | images
  | mapTiles
  | passthrough
deriving DecidableEq

/-- Source: matcher of the navigation route. -/
def matchNavigate (r : Request) : Bool :=
  r.mode == "navigate"

/-- Source: matcher of the contribution offline-queue route. -/
def matchContribution (r : Request) : Bool :=
  r.method == "POST" && strStartsWith r.url.pathname "/api/v1/contributions/"

/-- Source: matcher of the user-data network-only route. -/
def matchUserData (r : Request) : Bool :=
  r.method == "GET" && isUserDataPath r.url.pathname

/-- Source: matcher of the API GET route. -/
def matchApiGet (r : Request) : Bool :=
  r.method == "GET" && strStartsWith r.url.pathname "/api/v1/" &&
    !isUserDataPath r.url.pathname

/-- Source: matcher of the images cache-first route. -/
def matchImages (r : Request) : Bool :=
  r.destination == "image" || strStartsWith r.url.pathname "/media/"

/-- Source: matcher of the map-tiles cache-first route. -/
def matchMapTiles (r : Request) : Bool :=
  r.destination == "image" &&
    (r.url.hostname == "tile.openstreetmap.org" ||
      strEndsWith r.url.hostname ".tile.openstreetmap.org")

/-- The classifier induced by the registration order of the routes: first
matcher wins; the API GET handler internally dispatches on isListLike. -/
def classify (r : Request) : RouteClass :=
  if matchNavigate r then .navigation
  else if matchContribution r then .contributionQueue
  else if matchUserData r then .userDataNetworkOnly
  else if matchApiGet r then (if isListLike r then .apiList else .apiDetail)
  else if matchImages r then .images
  else if matchMapTiles r then .mapTiles
  else .passthrough

/-! ## Cache tier configuration

Per route class, the caching strategy and the cache parameters the source
passes to the strategy constructors (cache name, ExpirationPlugin maximum
age and entry count, CacheableResponsePlugin admitted statuses). -/

inductive Strategy where
  | precacheShell
  | networkOnly
  | networkFirst
  | staleWhileRevalidate
  | cacheFirst
  | plainNetwork
deriving DecidableEq

structure CacheTierConfig where
  cacheName : String
  maxAgeSeconds : Nat
  maxEntries : Nat
  /-- Statuses admitted by the CacheableResponsePlugin of the tier. -/
  cacheableStatuses : List Nat
deriving DecidableEq

/-- Source: the strategy each registered route constructs (an unmatched
request is a plain network fetch; the navigation route serves the
precached application shell). -/
def strategyOf : RouteClass → Strategy
  | .navigation => .precacheShell
  | .contributionQueue => .networkOnly
  | .userDataNetworkOnly => .networkOnly
  | .apiList => .networkFirst
  | .apiDetail => .staleWhileRevalidate
  | .images => .cacheFirst
  | .mapTiles => .cacheFirst
  | .passthrough => .plainNetwork

/-- Source: the cache configuration each route's strategy is constructed
with; none for the route classes that cache nothing. -/
def tierConfig : RouteClass → Option CacheTierConfig
  | .apiList => some ⟨"api-list-v1", 60 * 60, 200, [0, 200]⟩
  | .apiDetail => some ⟨"api-detail-v1", 60 * 60 * 24, 500, [0, 200]⟩
  | .images => some ⟨"images-v1", 60 * 60 * 24 * 7, 500, [0, 200]⟩
  | .mapTiles => some ⟨"map-tiles-osm", 60 * 60 * 24 * 30, 2000, [0, 200]⟩
  | _ => none

/-- Modelled from the spec: a route class's handler writes a response with
the given request method and status into its tier's cache only when the
tier has a cache, the CacheableResponsePlugin admits the status, and the
request is a GET (the browser cache storage rejects non-GET entries). -/
def storesResponse (rc : RouteClass) (method : String) (status : Nat) : Bool :=
  match tierConfig rc with
  | none => false
  | some cfg => method == "GET" && cfg.cacheableStatuses.contains status

/-- Modelled from the spec: whether the route class's handler contacts the
network on every request it handles.  The navigation route serves the
precached application shell without the network; cache-first tiers go to
the network only on a cache miss; network-only, network-first,
stale-while-revalidate and unmatched passthrough requests always issue a
network fetch. -/
def alwaysAttemptsNetwork : RouteClass → Bool
  | .navigation => false
  | .images => false
  | .mapTiles => false
  | _ => true

/-! ## Durable write queue

The contribution route is NetworkOnly with a BackgroundSyncPlugin whose
queue has maxRetentionTime 24 * 60 minutes (source).  The plugin and its
replay loop live in the workbox-background-sync library, outside the
repository; their behaviour is modelled from the spec below. -/

/-- Source: maxRetentionTime passed to the BackgroundSyncPlugin,
in minutes. -/
def maxRetentionTimeMinutes : Nat := 24 * 60

/-- The retention horizon in milliseconds (minutes times 60 * 1000). -/
def maxRetentionTimeMs : Nat := maxRetentionTimeMinutes * 60 * 1000

/-- A serialized queued mutation: the request data and the enqueue
timestamp in epoch milliseconds. -/
structure QueuedMutation where
  method : String
  urlPath : String
  body : String
  enqueuedAt : Nat
deriving DecidableEq

/-- Modelled from the spec: an entry is beyond the retention window when
its age exceeds the retention horizon (now - enqueuedAt >
maxRetentionTimeMs, stated over Nat as an addition). -/
def isExpiredEntry (now : Nat) (e : QueuedMutation) : Bool :=
  e.enqueuedAt + maxRetentionTimeMs < now

/-- The outcome the network produces for one attempted request: a response
with an HTTP status, or a connectivity failure (the fetch threw). -/
inductive NetOutcome where
  | response (status : Nat)
  | netError
deriving DecidableEq

/-- Modelled from the spec: the effect of the NetworkOnly strategy with
the background-sync plugin on the durable queue.  The network is attempted
first; only when the fetch itself fails (connectivity) does the plugin
append the serialized request at the tail of the queue; a response of any
status, success or server error, leaves the queue unchanged. -/
def contributionQueueEffect (q : List QueuedMutation) (e : QueuedMutation) :
    NetOutcome → List QueuedMutation
  | .response _ => q
  | .netError => q ++ [e]

/-- Modelled from the spec: one replay pass over the durable queue,
oldest entry first.  An entry beyond the retention window is dropped
without being sent; a fresh entry is reissued — on success it is removed
and the pass continues, on failure it stays at the head of the queue and
the pass stops without touching the remaining entries.  Returns the list
of entries actually reissued successfully (in order) and the queue left
after the pass; fetchOk tells whether reissuing a given entry succeeds. -/
def replayPass (now : Nat) (fetchOk : QueuedMutation → Bool) :
    List QueuedMutation → List QueuedMutation × List QueuedMutation
  | [] => ([], [])
  | e :: rest =>
    if isExpiredEntry now e then replayPass now fetchOk rest
    else if fetchOk e then
      (e :: (replayPass now fetchOk rest).1, (replayPass now fetchOk rest).2)
    else ([], e :: rest)

/-! ## Contribution submission flow

Model of submitContribution in the contribution form: the outcome of the
awaited POST, the resulting UI state, and the durable-queue effect the
service worker produces for the same POST. -/

/-- The possible outcomes of the awaited POST to the contributions
endpoint: a resolved success response, a rejected response carrying a
server HTTP status (the fetch completed, so the navigator is online), or
a thrown fetch (connectivity failure) together with the navigator.onLine
flag observed in the catch block. -/
inductive PostOutcome where
  | success (status : Nat)
  | httpError (status : Nat)
  | fetchFailed (onLine : Bool)
deriving DecidableEq

/-- The network outcome the service worker's NetworkOnly strategy sees for
the same POST: any received response (success or server error) is a
response; only a thrown fetch is a network error. -/
def netOutcomeOf : PostOutcome → NetOutcome
  | .success s => .response s
  | .httpError s => .response s
  | .fetchFailed _ => .netError

/-- The UI flags submitContribution leaves behind. -/
structure SubmitUiState where
  queuedOffline : Bool
  submittedSuccess : Bool
  errorAlerted : Bool
deriving DecidableEq

/-- Source: submitContribution — on a resolved POST, show success; in the
catch block, when navigator.onLine is false show the queued-will-sync
success state and return, otherwise alert the submission error. -/
def submitContribution : PostOutcome → SubmitUiState
  | .success _ => ⟨false, true, false⟩
  | .httpError _ => ⟨false, false, true⟩
  | .fetchFailed true => ⟨false, false, true⟩
  | .fetchFailed false => ⟨true, true, false⟩

/-! ## Query snapshot and offline manifest (explore view) -/

/-- A JSON parameter value as produced by the snapshot: a string filter or
the literal true of a media flag. -/
inductive PVal where
  | s (v : String)
  | b (v : Bool)
deriving DecidableEq

/-- The reactive filter state the snapshot reads (selectedTypeId is the
already-computed id of the selected type slug, empty for all). -/
structure FilterState where
  search : String
  selectedTypeId : String
  selectedCategoryId : String
  selectedParishId : String
  selectedMedia : String
  selectedOrdering : String
deriving DecidableEq

/-- Source: currentQuerySnapshot — build the params object field by field
in program order, omitting falsy (empty) values; the media selection adds
exactly one boolean flag.  JavaScript objects preserve insertion order, so
the snapshot is the ordered association list below. -/
def currentQuerySnapshot (st : FilterState) : List (String × PVal) :=
  (if strTrim st.search ≠ "" then [("search", PVal.s (strTrim st.search))] else []) ++
  (if st.selectedTypeId ≠ "" then [("heritage_type", PVal.s st.selectedTypeId)] else []) ++
  (if st.selectedCategoryId ≠ "" then [("heritage_category", PVal.s st.selectedCategoryId)] else []) ++
  (if st.selectedParishId ≠ "" then [("parish", PVal.s st.selectedParishId)] else []) ++
  (if st.selectedOrdering ≠ "" then [("ordering", PVal.s st.selectedOrdering)] else []) ++
  (if st.selectedMedia = "images" then [("has_images", PVal.b true)] else []) ++
  (if st.selectedMedia = "audio" then [("has_audio", PVal.b true)] else []) ++
  (if st.selectedMedia = "video" then [("has_video", PVal.b true)] else []) ++
  (if st.selectedMedia = "documents" then [("has_documents", PVal.b true)] else []) ++
  (if st.selectedMedia = "text" then [("text_only", PVal.b true)] else [])

/-- The insertion order of the possible snapshot keys, in program order. -/
def snapshotKeyOrder : List String :=
  ["search", "heritage_type", "heritage_category", "parish", "ordering",
   "has_images", "has_audio", "has_video", "has_documents", "text_only"]

/-- Join strings with a separator. -/
def joinStrings (sep : String) : List String → String
  | [] => ""
  | [x] => x
  | x :: y :: xs => x ++ sep ++ joinStrings sep (y :: xs)

/-- JSON.stringify of a parameter value (filter values contain no
characters needing escapes). -/
def serializePVal : PVal → String
  | .s v => "\"" ++ v ++ "\""
  | .b true => "true"
  | .b false => "false"

/-- JSON.stringify of an ordered params object. -/
def serializeParams (l : List (String × PVal)) : String :=
  "\x7b" ++
    joinStrings "," (l.map (fun p => "\"" ++ p.1 ++ "\":" ++ serializePVal p.2)) ++
  "\x7d"

/-- The manifest record stored under the offline-area storage key. -/
structure ManifestRecord where
  query : List (String × PVal)
  downloadedAt : Nat
  itemCount : Nat
deriving DecidableEq

/-- Source: hasOfflineBundleForCurrentQuery — false when nothing is stored
(or parsing fails); otherwise compare JSON.stringify of the stored query
against JSON.stringify of the current snapshot. -/
def hasOfflineBundleForCurrentQuery (stored : Option ManifestRecord)
    (st : FilterState) : Bool :=
  match stored with
  | none => false
  | some m => serializeParams m.query == serializeParams (currentQuerySnapshot st)

/-! ## Offline bundle builder

Model of downloadForOffline: page through the list endpoint with page size
100 for up to 5 pages, fetch every listed item's detail, best-effort
pre-fetch its media URLs (failures swallowed), and on completion store the
manifest, overwriting any prior one; any thrown list-page or detail fetch
aborts the whole operation with the download error and leaves the stored
manifest untouched. -/

/-- A media attachment reference inside a detail representation; its file
URL may be null or absent. -/
structure MediaRef where
  file : Option String
deriving DecidableEq

/-- The detail representation of a heritage item, as far as the bundle
builder reads it. -/
structure HeritageDetail where
  primaryImage : Option String
  images : List MediaRef
  audio : List MediaRef
  video : List MediaRef
  documents : List MediaRef
deriving DecidableEq

/-- A list-page item (only its id is used). -/
structure ListItem where
  id : Nat
deriving DecidableEq

/-- One page of the paginated list endpoint: the results array and the
truthiness of the next pointer. -/
structure ListPage where
  results : List ListItem
  hasNext : Bool
deriving DecidableEq

/-- The two endpoints the bundle builder awaits; a thrown request is an
error value.  Media fetches are modelled separately since their failures
are swallowed. -/
structure OfflineApi where
  listPage : Nat → Except Unit ListPage
  detail : Nat → Except Unit HeritageDetail

/-- Source: the media URL collection for one detail — primary image then
the file fields of images, audio, video and documents, keeping only
non-null, non-empty strings. -/
def mediaUrls (d : HeritageDetail) : List String :=
  ((d.primaryImage ::
      (d.images ++ d.audio ++ d.video ++ d.documents).map MediaRef.file).filterMap
    id).filter (fun u => u ≠ "")

/-- Process the items of one page: count each item, fetch its detail
(a thrown detail aborts), and warm the media cache best-effort; mediaOk
tells which media fetches succeed, and failed ones are swallowed.  Returns
the updated item counter and warmed-media counter. -/
def processPageItems (api : OfflineApi) (mediaOk : String → Bool) :
    List ListItem → Nat → Nat → Except Unit (Nat × Nat)
  | [], total, warmed => .ok (total, warmed)
  | it :: rest, total, warmed =>
    match api.detail it.id with
    | .error _ => .error ()
    | .ok d =>
      processPageItems api mediaOk rest (total + 1)
        (warmed + ((mediaUrls d).filter mediaOk).length)

/-- A logged list-endpoint request: the page number and page_size sent. -/
structure PageRequest where
  page : Nat
  pageSize : Nat
deriving DecidableEq

/-- Source: the paging loop of downloadForOffline.  remaining is the fuel
for the while condition page less-or-equal maxPages (it starts at 5);
every iteration requests the current page with page_size 100, processes
its items, and continues with the next page unless the page had no next
pointer or an empty results array.  Returns none when a list-page or
detail fetch threw, together with the log of list-endpoint requests
issued. -/
def bundleLoop (api : OfflineApi) (mediaOk : String → Bool) :
    Nat → Nat → Nat → Nat → Option (Nat × Nat) × List PageRequest
  | 0, _, total, warmed => (some (total, warmed), [])
  | remaining + 1, page, total, warmed =>
    match api.listPage page with
    | .error _ => (none, [⟨page, 100⟩])
    | .ok data =>
      match processPageItems api mediaOk data.results total warmed with
      | .error _ => (none, [⟨page, 100⟩])
      | .ok (total', warmed') =>
        if !data.hasNext || data.results.isEmpty then
          (some (total', warmed'), [⟨page, 100⟩])
        else
          ((bundleLoop api mediaOk remaining (page + 1) total' warmed').1,
            ⟨page, 100⟩ :: (bundleLoop api mediaOk remaining (page + 1) total' warmed').2)

/-- The length of the results array the list endpoint returns for a page
(zero when the request throws). -/
def resultsLenAt (api : OfflineApi) (p : Nat) : Nat :=
  match api.listPage p with
  | .error _ => 0
  | .ok d => d.results.length

/-- The error state downloadForOffline leaves behind. -/
inductive DownloadErr where
  | noError
  | mustBeOnline
  | downloadFailed
deriving DecidableEq

/-- What downloadForOffline leaves behind: the stored manifest after the
call, the error state, the number of media fetches that succeeded, and the
list-endpoint requests issued. -/
structure DownloadOutcome where
  stored : Option ManifestRecord
  err : DownloadErr
  warmedMedia : Nat
  pageLog : List PageRequest
deriving DecidableEq

/-- Source: downloadForOffline — refuse when navigator.onLine is false;
otherwise run the paging loop from page 1 with maxPages 5; on a thrown
fetch set the download error and leave the stored manifest as it was; on
completion overwrite the manifest with the current query snapshot, the
current time and the item counter. -/
def downloadForOffline (onLine : Bool) (api : OfflineApi)
    (mediaOk : String → Bool) (query : List (String × PVal)) (now : Nat)
    (prev : Option ManifestRecord) : DownloadOutcome :=
  if onLine = false then ⟨prev, .mustBeOnline, 0, []⟩
  else
    match bundleLoop api mediaOk 5 1 0 0 with
    | (none, log) => ⟨prev, .downloadFailed, 0, log⟩
    | (some (total, warmed), log) => ⟨some ⟨query, now, total⟩, .noError, warmed, log⟩

/-! ## Helper lemmas -/

/-- Every request the map-tiles matcher accepts is already accepted by the
images matcher registered before it. -/
theorem matchMapTiles_le_matchImages (r : Request)
    (h : matchMapTiles r = true) : matchImages r = true := by
  unfold matchMapTiles at h
  unfold matchImages
  simp only [Bool.and_eq_true] at h
  simp [h.1]

/-- The map-tiles route is shadowed by the images route: no request is
ever classified to the map-tile tier. -/
theorem classify_ne_mapTiles (r : Request) :
    classify r ≠ RouteClass.mapTiles := by
  intro h
  unfold classify at h
  split at h
  · simp at h
  · split at h
    · simp at h
    · split at h
      · simp at h
      · split at h
        · split at h <;> simp at h
        · split at h
          · simp at h
          · rename_i himg
            split at h
            · rename_i htile
              exact himg (matchMapTiles_le_matchImages r htile)
            · simp at h

/-- A non-GET response is never written to any tier's cache. -/
theorem storesResponse_false_of_not_get (rc : RouteClass) (m : String)
    (s : Nat) (h : (m == "GET") = false) : storesResponse rc m s = false := by
  cases rc <;> simp [storesResponse, tierConfig, h]

/-! ## C1 -/

/-- A GET image request to the OpenStreetMap tile host. -/
def osmTileRequest : Request :=
  ⟨"GET", "no-cors", "image",
    ⟨"tile.openstreetmap.org", "/12/2048/1362.png", []⟩⟩

/-- C1: a GET image request to the OpenStreetMap tile host is classified
to the images tier (cache-first, max age 7 days, max 500 entries), and no
request at all is ever classified to the map-tile tier: the map-tiles
route is registered after the images route, whose matcher accepts every
image-destination request first, so the map-tile tier is unreachable. -/
theorem mapTileRequest_hits_images_tier :
    classify osmTileRequest = RouteClass.images ∧
    strategyOf RouteClass.images = Strategy.cacheFirst ∧
    tierConfig RouteClass.images =
      some ⟨"images-v1", 60 * 60 * 24 * 7, 500, [0, 200]⟩ ∧
    ∀ r : Request, classify r ≠ RouteClass.mapTiles :=
  ⟨by decide, rfl, rfl, classify_ne_mapTiles⟩

/-! ## C3 -/

/-- A PUT request to the contribution-submission path. -/
def putContributionRequest : Request :=
  ⟨"PUT", "cors", "", ⟨"localhost", "/api/v1/contributions/42/", []⟩⟩

/-- C3 counterexample: a PUT to the contribution-submission path is not
routed to the durable write queue — the contribution route only matches
POST, so the PUT passes straight through to the network. -/
theorem put_contribution_not_queued :
    classify putContributionRequest = RouteClass.passthrough ∧
    RouteClass.passthrough ≠ RouteClass.contributionQueue :=
  ⟨by decide, by decide⟩

/-- C3 amended: every non-navigation POST to the contribution-submission
path is routed to the durable write queue path — the strategy is
network-only (the network is attempted first) and the queue gains the
entry exactly when the fetch itself fails. -/
theorem post_contributions_routed_to_queue :
    ∀ r : Request, r.mode ≠ "navigate" → r.method = "POST" →
      strStartsWith r.url.pathname "/api/v1/contributions/" = true →
      classify r = RouteClass.contributionQueue ∧
      strategyOf (classify r) = Strategy.networkOnly ∧
      (∀ (q : List QueuedMutation) (e : QueuedMutation) (s : Nat),
        contributionQueueEffect q e (.response s) = q ∧
        contributionQueueEffect q e .netError = q ++ [e]) := by
  intro r hmode hpost hpath
  have hnav : matchNavigate r = false := by
    unfold matchNavigate
    simp [hmode]
  have hcon : matchContribution r = true := by
    unfold matchContribution
    simp [hpost, hpath]
  have hclass : classify r = RouteClass.contributionQueue := by
    unfold classify
    simp [hnav, hcon]
  exact ⟨hclass, by simp [hclass, strategyOf], fun q e s => ⟨rfl, rfl⟩⟩

/-- C3 amended, witness: the concrete POST to the contribution path is
routed to the queue path. -/
theorem post_contributions_routed_to_queue_witness :
    classify ⟨"POST", "cors", "", ⟨"localhost", "/api/v1/contributions/", []⟩⟩ =
      RouteClass.contributionQueue :=
  (post_contributions_routed_to_queue
    ⟨"POST", "cors", "", ⟨"localhost", "/api/v1/contributions/", []⟩⟩
    (by decide) rfl (by decide)).1

/-! ## C10 -/

/-- C10: every cache tier admits a response into its cache only when the
status is 0 or 200; in particular no 4xx or 5xx response is ever written
to any tier, so error responses can never be served from cache. -/
theorem cache_writes_only_status_0_or_200 :
    ∀ (rc : RouteClass) (m : String) (s : Nat),
      (storesResponse rc m s = true → s = 0 ∨ s = 200) ∧
      (400 ≤ s → storesResponse rc m s = false) := by
  intro rc m s
  constructor
  · intro h
    cases rc <;> simp [storesResponse, tierConfig] at h <;>
      rcases h with ⟨-, h⟩ <;> exact h
  · intro hs
    cases rc <;> simp [storesResponse, tierConfig] <;>
      intro _ <;> omega

/-- C10 witness: the api-list tier does store a 200 GET response, and
refuses a 404. -/
theorem cache_writes_only_status_0_or_200_witness :
    (200 = 0 ∨ 200 = 200) ∧
      storesResponse RouteClass.apiList "GET" 404 = false :=
  ⟨(cache_writes_only_status_0_or_200 RouteClass.apiList "GET" 200).1 (by decide),
   (cache_writes_only_status_0_or_200 RouteClass.apiList "GET" 404).2 (by decide)⟩

/-! ## C2 -/

/-- When the API GET route cannot match (here because the path is an
identity path), no request is classified to the api-list or api-detail
tier. -/
theorem classify_ne_api_of_not_apiGet (r : Request)
    (hapi : matchApiGet r = false) :
    classify r ≠ RouteClass.apiList ∧ classify r ≠ RouteClass.apiDetail := by
  by_cases h1 : matchNavigate r = true <;>
  by_cases h2 : matchContribution r = true <;>
  by_cases h3 : matchUserData r = true <;>
  by_cases h5 : matchImages r = true <;>
  by_cases h6 : matchMapTiles r = true <;>
  simp [classify, h1, h2, h3, hapi, h5, h6]

/-- A top-level navigation whose location is an identity path. -/
def identityNavigationRequest : Request :=
  ⟨"GET", "navigate", "document", ⟨"localhost", "/api/v1/users/me/", []⟩⟩

/-- C2 counterexample: a navigation-mode GET to an identity path is
captured by the navigation route registered first, which serves the
precached application shell without attempting the network — so not every
request to an identity path is fetched from the network. -/
theorem identity_navigation_served_from_shell :
    isUserDataPath identityNavigationRequest.url.pathname = true ∧
    classify identityNavigationRequest = RouteClass.navigation ∧
    strategyOf RouteClass.navigation = Strategy.precacheShell ∧
    alwaysAttemptsNetwork RouteClass.navigation = false := by
  decide

/-- C2 amended: for every request to an identity path, no entry is ever
added to any cache tier and it is never classified to the api-list or
api-detail tier; every such non-navigation GET request is classified to
the network-only user-data route and always fetched from the network. -/
theorem identity_paths_never_cached :
    ∀ r : Request, isUserDataPath r.url.pathname = true →
      (∀ s : Nat, storesResponse (classify r) r.method s = false) ∧
      classify r ≠ RouteClass.apiList ∧ classify r ≠ RouteClass.apiDetail ∧
      (r.mode ≠ "navigate" → r.method = "GET" →
        classify r = RouteClass.userDataNetworkOnly ∧
        strategyOf RouteClass.userDataNetworkOnly = Strategy.networkOnly ∧
        alwaysAttemptsNetwork RouteClass.userDataNetworkOnly = true) := by
  intro r hud
  have hapi : matchApiGet r = false := by simp [matchApiGet, hud]
  by_cases hget : r.method = "GET"
  · have hcon : matchContribution r = false := by
      rw [matchContribution, hget]; rfl
    by_cases hnav : matchNavigate r = true
    · have hclass : classify r = RouteClass.navigation := by
        simp [classify, hnav]
      have hmode : r.mode = "navigate" := by simpa [matchNavigate] using hnav
      exact ⟨fun s => by simp [hclass, storesResponse, tierConfig],
        by simp [hclass], by simp [hclass],
        fun hm _ => absurd hmode hm⟩
    · have hmud : matchUserData r = true := by simp [matchUserData, hget, hud]
      have hclass : classify r = RouteClass.userDataNetworkOnly := by
        simp [classify, hnav, hcon, hmud]
      exact ⟨fun s => by simp [hclass, storesResponse, tierConfig],
        by simp [hclass], by simp [hclass],
        fun _ _ => ⟨hclass, rfl, rfl⟩⟩
  · have hget' : (r.method == "GET") = false := by
      simpa using hget
    have hapis := classify_ne_api_of_not_apiGet r hapi
    exact ⟨fun s => storesResponse_false_of_not_get _ _ _ hget',
      hapis.1, hapis.2, fun _ hg => absurd hg hget⟩

/-- C2 amended, witness: a plain (cors-mode) GET to the current-user path
is classified network-only. -/
theorem identity_paths_never_cached_witness :
    classify ⟨"GET", "cors", "", ⟨"localhost", "/api/v1/users/me/", []⟩⟩ =
      RouteClass.userDataNetworkOnly :=
  ((identity_paths_never_cached
    ⟨"GET", "cors", "", ⟨"localhost", "/api/v1/users/me/", []⟩⟩
    (by decide)).2.2.2 (by decide) rfl).1

/-! ## C8 -/

/-- A top-level navigation whose location is a collection URL under the
API root. -/
def collectionNavigationRequest : Request :=
  ⟨"GET", "navigate", "document", ⟨"localhost", "/api/v1/heritage-items/", []⟩⟩

/-- The pagination parameters of the list endpoints as the spec names them
(page and page_size): a definition following the spec's words, to be
compared with the source's page-only test. -/
def specPaginationParams : List String := ["page", "page_size"]

/-- A pagination parameter (in the spec's sense) is present on the
request. -/
def specHasPaginationParam (r : Request) : Bool :=
  r.url.searchKeys.any (fun k => specPaginationParams.contains k)

/-- The collection fetch the explore view itself issues for its filter
options: GET categories/all/ under the API root (axios base /api/v1).  Its
trailing segment all is an action suffix of a collection endpoint, not a
resource identifier, and the response enumerates every category. -/
def categoriesAllRequest : Request :=
  ⟨"GET", "cors", "", ⟨"localhost", "/api/v1/categories/all/", []⟩⟩

/-- The same collection endpoint paginated through page_size only. -/
def categoriesAllPagedRequest : Request :=
  ⟨"GET", "cors", "", ⟨"localhost", "/api/v1/categories/all/", ["page_size"]⟩⟩

/-- C8 counterexample: the classifier does not follow the claim's
collection/identifier criterion.  The explore view's own collection fetch
GET /api/v1/categories/all/ — which enumerates a collection and addresses
no single resource by an identifier (all is a fixed action segment) — is
classified to the api-detail tier because two path segments follow v1; the
same endpoint with the pagination parameter page_size present is still
classified api-detail, because the code's heuristic only tests the page
key; and a navigation-mode GET to a collection URL under the API root is
captured by the navigation route, not the api-list tier. -/
theorem collection_fetch_cached_as_detail :
    (matchApiGet categoriesAllRequest = true ∧
      classify categoriesAllRequest = RouteClass.apiDetail) ∧
    (specHasPaginationParam categoriesAllPagedRequest = true ∧
      classify categoriesAllPagedRequest = RouteClass.apiDetail ∧
      RouteClass.apiDetail ≠ RouteClass.apiList) ∧
    (isListLike collectionNavigationRequest = true ∧
      classify collectionNavigationRequest = RouteClass.navigation ∧
      RouteClass.navigation ≠ RouteClass.apiList) := by
  decide

/-- C8 amended: for every non-navigation GET request under the API root
that is not an identity path, the handler classifies by the
resource-segment heuristic of the source: api-list exactly when at most
one path segment follows v1 or a page query parameter is present, and
api-detail exactly otherwise.  The heuristic approximates the claim's
collection/identifier criterion but diverges from it: a collection
endpoint with a trailing non-identifier segment (the explore view's
/api/v1/categories/all/) is classified api-detail, and a pagination
parameter other than page (page_size) does not select the api-list
tier. -/
theorem api_get_heuristic_classification :
    (∀ r : Request, r.mode ≠ "navigate" → r.method = "GET" →
      strStartsWith r.url.pathname "/api/v1/" = true →
      isUserDataPath r.url.pathname = false →
      (classify r = RouteClass.apiList ↔ isListLike r = true) ∧
      (classify r = RouteClass.apiDetail ↔ isListLike r = false)) ∧
    classify categoriesAllRequest = RouteClass.apiDetail ∧
    (specHasPaginationParam categoriesAllPagedRequest = true ∧
      classify categoriesAllPagedRequest ≠ RouteClass.apiList) := by
  refine ⟨?_, by decide, by decide⟩
  intro r hmode hget hpath hud
  have hnav : matchNavigate r = false := by simp [matchNavigate, hmode]
  have hcon : matchContribution r = false := by
    rw [matchContribution, hget]; rfl
  have hmud : matchUserData r = false := by simp [matchUserData, hud]
  have hag : matchApiGet r = true := by simp [matchApiGet, hget, hpath, hud]
  have hclass : classify r =
      (if isListLike r then RouteClass.apiList else RouteClass.apiDetail) := by
    simp [classify, hnav, hcon, hmud, hag]
  by_cases hl : isListLike r = true
  · simp [hclass, hl]
  · have hl' : isListLike r = false := by simpa using hl
    simp [hclass, hl']

/-- C8 amended, witness: a plain GET to a detail URL (two resource
segments after v1, no page parameter) is classified to the api-detail
tier. -/
theorem api_get_heuristic_classification_witness :
    classify ⟨"GET", "cors", "", ⟨"localhost", "/api/v1/heritage-items/5/", []⟩⟩ =
      RouteClass.apiDetail :=
  ((api_get_heuristic_classification.1
    ⟨"GET", "cors", "", ⟨"localhost", "/api/v1/heritage-items/5/", []⟩⟩
    (by decide) rfl (by decide) (by decide)).2).mpr (by decide)

/-! ## Bundle-loop lemmas -/

/-- Processing the items of a page increments the item counter by exactly
the number of items in the page. -/
theorem processPageItems_count (api : OfflineApi) (m : String → Bool) :
    ∀ (items : List ListItem) (total w t' w' : Nat),
      processPageItems api m items total w = .ok (t', w') →
      t' = total + items.length := by
  intro items
  induction items with
  | nil =>
    intro total w t' w' h
    simp only [processPageItems, Except.ok.injEq, Prod.mk.injEq] at h
    simp only [List.length_nil]
    omega
  | cons a rest ih =>
    intro total w t' w' h
    cases hd : api.detail a.id with
    | error e => simp [processPageItems, hd] at h
    | ok d =>
      simp only [processPageItems, hd] at h
      have := ih _ _ _ _ h
      simp only [List.length_cons]
      omega

/-- The item counter produced by processing a page does not depend on
which media fetches succeed (failed media fetches are swallowed): the
Except-level results agree after discarding the warmed-media counter. -/
theorem processPageItems_total_independent (api : OfflineApi)
    (m1 m2 : String → Bool) :
    ∀ (items : List ListItem) (total w1 w2 : Nat),
      (processPageItems api m1 items total w1).map Prod.fst =
      (processPageItems api m2 items total w2).map Prod.fst := by
  intro items
  induction items with
  | nil => intro total w1 w2; rfl
  | cons a rest ih =>
    intro total w1 w2
    cases hd : api.detail a.id with
    | error e => simp [processPageItems, hd]
    | ok d =>
      simp only [processPageItems, hd]
      exact ih (total + 1) _ _

/-- Every list-endpoint request the paging loop issues carries page_size
100 and a page number in the window [page, page + fuel). -/
theorem bundleLoop_log_pages (api : OfflineApi) (m : String → Bool) :
    ∀ (fuel page total w : Nat),
      ∀ pr ∈ (bundleLoop api m fuel page total w).2,
        pr.pageSize = 100 ∧ page ≤ pr.page ∧ pr.page < page + fuel := by
  intro fuel
  induction fuel with
  | zero =>
    intro page total w pr hpr
    simp [bundleLoop] at hpr
  | succ n ih =>
    intro page total w pr hpr
    cases hl : api.listPage page with
    | error e =>
      simp [bundleLoop, hl] at hpr
      simp [hpr]
    | ok data =>
      cases hp : processPageItems api m data.results total w with
      | error e =>
        simp [bundleLoop, hl, hp] at hpr
        simp [hpr]
      | ok tw =>
        obtain ⟨t', w'⟩ := tw
        by_cases hstop : (!data.hasNext || data.results.isEmpty) = true
        · simp [bundleLoop, hl, hp, hstop] at hpr
          simp [hpr]
        · have hstop' : (!data.hasNext || data.results.isEmpty) = false := by
            simpa using hstop
          simp only [bundleLoop, hl, hp, hstop', Bool.false_eq_true,
            if_false] at hpr
          simp only [List.mem_cons] at hpr
          rcases hpr with rfl | hpr
          · simp
          · have := ih (page + 1) t' w' pr hpr
            exact ⟨this.1, by omega, by omega⟩

/-- The paging loop issues at most fuel list-endpoint requests. -/
theorem bundleLoop_log_length (api : OfflineApi) (m : String → Bool) :
    ∀ (fuel page total w : Nat),
      (bundleLoop api m fuel page total w).2.length ≤ fuel := by
  intro fuel
  induction fuel with
  | zero =>
    intro page total w
    simp [bundleLoop]
  | succ n ih =>
    intro page total w
    cases hl : api.listPage page with
    | error e => simp [bundleLoop, hl]
    | ok data =>
      cases hp : processPageItems api m data.results total w with
      | error e => simp [bundleLoop, hl, hp]
      | ok tw =>
        obtain ⟨t', w'⟩ := tw
        by_cases hstop : (!data.hasNext || data.results.isEmpty) = true
        · simp [bundleLoop, hl, hp, hstop]
        · have hstop' : (!data.hasNext || data.results.isEmpty) = false := by
            simpa using hstop
          simp only [bundleLoop, hl, hp, hstop', Bool.false_eq_true, if_false,
            List.length_cons]
          have := ih (page + 1) t' w'
          omega

/-- A page beyond the starting one is requested only because the page
before it was fetched successfully, had a next pointer and a non-empty
results array: the loop stops early otherwise. -/
theorem bundleLoop_log_chain (api : OfflineApi) (m : String → Bool) :
    ∀ (fuel page total w : Nat),
      ∀ pr ∈ (bundleLoop api m fuel page total w).2,
        pr.page = page ∨
        ∃ d, api.listPage (pr.page - 1) = .ok d ∧ d.hasNext = true ∧
          d.results.isEmpty = false := by
  intro fuel
  induction fuel with
  | zero =>
    intro page total w pr hpr
    simp [bundleLoop] at hpr
  | succ n ih =>
    intro page total w pr hpr
    cases hl : api.listPage page with
    | error e =>
      simp [bundleLoop, hl] at hpr
      simp [hpr]
    | ok data =>
      cases hp : processPageItems api m data.results total w with
      | error e =>
        simp [bundleLoop, hl, hp] at hpr
        simp [hpr]
      | ok tw =>
        obtain ⟨t', w'⟩ := tw
        by_cases hstop : (!data.hasNext || data.results.isEmpty) = true
        · simp [bundleLoop, hl, hp, hstop] at hpr
          simp [hpr]
        · have hstop' : (!data.hasNext || data.results.isEmpty) = false := by
            simpa using hstop
          simp only [bundleLoop, hl, hp, hstop', Bool.false_eq_true,
            if_false] at hpr
          simp only [List.mem_cons] at hpr
          rcases hpr with rfl | hpr
          · simp
          · rcases ih (page + 1) t' w' pr hpr with hpg | hex
            · right
              have hnn : data.hasNext = true ∧ data.results.isEmpty = false := by
                rcases Bool.or_eq_false_iff.1 hstop' with ⟨h1, h2⟩
                exact ⟨by simpa using h1, h2⟩
              exact ⟨data, by rw [hpg]; simpa using hl, hnn.1, hnn.2⟩
            · exact Or.inr hex

/-- On a completed run the final item counter equals the starting counter
plus the total number of items returned by the pages actually
requested. -/
theorem bundleLoop_count (api : OfflineApi) (m : String → Bool) :
    ∀ (fuel page total w T W : Nat),
      (bundleLoop api m fuel page total w).1 = some (T, W) →
      T = total +
        ((bundleLoop api m fuel page total w).2.map
          (fun pr => resultsLenAt api pr.page)).sum := by
  intro fuel
  induction fuel with
  | zero =>
    intro page total w T W h
    simp only [bundleLoop, Option.some.injEq, Prod.mk.injEq] at h
    simp only [bundleLoop, List.map_nil, List.sum_nil]
    omega
  | succ n ih =>
    intro page total w T W h
    cases hl : api.listPage page with
    | error e => simp [bundleLoop, hl] at h
    | ok data =>
      cases hp : processPageItems api m data.results total w with
      | error e => simp [bundleLoop, hl, hp] at h
      | ok tw =>
        obtain ⟨t', w'⟩ := tw
        have hcount := processPageItems_count api m data.results total w t' w' hp
        by_cases hstop : (!data.hasNext || data.results.isEmpty) = true
        · simp only [bundleLoop, hl, hp, hstop, if_true,
            Option.some.injEq, Prod.mk.injEq] at h
          simp only [bundleLoop, hl, hp, hstop, if_true, List.map_cons,
            List.map_nil, List.sum_cons, List.sum_nil]
          simp only [resultsLenAt, hl]
          omega
        · have hstop' : (!data.hasNext || data.results.isEmpty) = false := by
            simpa using hstop
          simp only [bundleLoop, hl, hp, hstop', Bool.false_eq_true,
            if_false] at h
          have := ih (page + 1) t' w' T W h
          have hr : resultsLenAt api page = data.results.length := by
            simp [resultsLenAt, hl]
          simp only [bundleLoop, hl, hp, hstop', Bool.false_eq_true, if_false,
            List.map_cons, List.sum_cons, hr]
          omega

/-- The run outcome (success or abort, the item counter, and the request
log) does not depend on which media fetches succeed. -/
theorem bundleLoop_media_independent (api : OfflineApi)
    (m1 m2 : String → Bool) :
    ∀ (fuel page total w1 w2 : Nat),
      (bundleLoop api m1 fuel page total w1).1.map Prod.fst =
        (bundleLoop api m2 fuel page total w2).1.map Prod.fst ∧
      (bundleLoop api m1 fuel page total w1).2 =
        (bundleLoop api m2 fuel page total w2).2 := by
  intro fuel
  induction fuel with
  | zero =>
    intro page total w1 w2
    simp [bundleLoop]
  | succ n ih =>
    intro page total w1 w2
    cases hl : api.listPage page with
    | error e => simp [bundleLoop, hl]
    | ok data =>
      have hpi := processPageItems_total_independent api m1 m2 data.results
        total w1 w2
      cases hp1 : processPageItems api m1 data.results total w1 with
      | error e1 =>
        cases hp2 : processPageItems api m2 data.results total w2 with
        | error e2 => simp [bundleLoop, hl, hp1, hp2]
        | ok tw2 =>
          rw [hp1, hp2] at hpi
          simp [Except.map] at hpi
      | ok tw1 =>
        obtain ⟨t1, u1⟩ := tw1
        cases hp2 : processPageItems api m2 data.results total w2 with
        | error e2 =>
          rw [hp1, hp2] at hpi
          simp [Except.map] at hpi
        | ok tw2 =>
          obtain ⟨t2, u2⟩ := tw2
          rw [hp1, hp2] at hpi
          simp only [Except.map, Except.ok.injEq] at hpi
          have ht : t1 = t2 := hpi
          subst ht
          by_cases hstop : (!data.hasNext || data.results.isEmpty) = true
          · simp [bundleLoop, hl, hp1, hp2, hstop]
          · have hstop' : (!data.hasNext || data.results.isEmpty) = false := by
              simpa using hstop
            simp only [bundleLoop, hl, hp1, hp2, hstop', Bool.false_eq_true,
              if_false]
            have := ih (page + 1) t1 u1 u2
            exact ⟨this.1, by rw [this.2]⟩

/-- A thrown first-page fetch aborts the whole run. -/
theorem bundleLoop_error_of_listPage_error (api : OfflineApi)
    (m : String → Bool) (fuel page total w : Nat)
    (h : api.listPage page = .error ()) :
    (bundleLoop api m (fuel + 1) page total w).1 = none := by
  simp [bundleLoop, h]

/-- When some item of a page has a throwing detail fetch, processing that
page aborts, and so does the whole run. -/
theorem processPageItems_error_of_detail_error (api : OfflineApi)
    (m : String → Bool) :
    ∀ (items : List ListItem) (it : ListItem), it ∈ items →
      api.detail it.id = .error () →
      ∀ total w, processPageItems api m items total w = .error () := by
  intro items
  induction items with
  | nil =>
    intro it hit
    simp at hit
  | cons a rest ih =>
    intro it hit hd total w
    rcases List.mem_cons.1 hit with rfl | hit
    · simp [processPageItems, hd]
    · cases hda : api.detail a.id with
      | error e => simp [processPageItems, hda]
      | ok d =>
        simp only [processPageItems, hda]
        exact ih it hit hd _ _

/-! ## C4 -/

/-- C4: a contribution mutation whose awaited POST throws while the
navigator is offline is appended to the durable queue by the sync plugin,
and the form reports the queued-will-sync success state rather than an
error; a server-side 4xx or 5xx response leaves the queue unchanged (the
fetch itself succeeded, so the plugin never fires) and is surfaced to the
caller as an error immediately. -/
theorem contribution_failure_handling :
    ∀ (q : List QueuedMutation) (e : QueuedMutation) (s : Nat),
      (contributionQueueEffect q e (netOutcomeOf (.fetchFailed false)) = q ++ [e] ∧
        submitContribution (.fetchFailed false) =
          ⟨true, true, false⟩) ∧
      (400 ≤ s →
        contributionQueueEffect q e (netOutcomeOf (.httpError s)) = q ∧
        submitContribution (.httpError s) = ⟨false, false, true⟩) := by
  intro q e s
  exact ⟨⟨rfl, rfl⟩, fun _ => ⟨rfl, rfl⟩⟩

/-- C4 witness: a 404 rejection of the concrete mutation leaves the empty
queue empty. -/
theorem contribution_failure_handling_witness :
    contributionQueueEffect [] ⟨"POST", "/api/v1/contributions/", "x", 0⟩
      (netOutcomeOf (.httpError 404)) = [] :=
  ((contribution_failure_handling [] ⟨"POST", "/api/v1/contributions/", "x", 0⟩
    404).2 (by decide)).1

/-! ## C5 -/

/-- Entries successfully replayed in one pass form a subsequence of the
queue: replay preserves submission order. -/
theorem replayPass_sent_sublist (now : Nat) (f : QueuedMutation → Bool) :
    ∀ q : List QueuedMutation, (replayPass now f q).1.Sublist q := by
  intro q
  induction q with
  | nil => simp [replayPass]
  | cons e rest ih =>
    by_cases he : isExpiredEntry now e = true
    · simp only [replayPass, he, if_true]
      exact ih.cons e
    · have he' : isExpiredEntry now e = false := by simpa using he
      by_cases hf : f e = true
      · simp only [replayPass, he', hf, Bool.false_eq_true, if_false, if_true]
        exact ih.cons₂ e
      · have hf' : f e = false := by simpa using hf
        simp only [replayPass, he', hf', Bool.false_eq_true, if_false]
        exact List.nil_sublist _

/-- Every entry successfully replayed in one pass was within the retention
window and its reissued fetch succeeded. -/
theorem replayPass_sent_ok (now : Nat) (f : QueuedMutation → Bool) :
    ∀ q : List QueuedMutation, ∀ x ∈ (replayPass now f q).1,
      isExpiredEntry now x = false ∧ f x = true := by
  intro q
  induction q with
  | nil => simp [replayPass]
  | cons e rest ih =>
    by_cases he : isExpiredEntry now e = true
    · simpa only [replayPass, he, if_true] using ih
    · have he' : isExpiredEntry now e = false := by simpa using he
      by_cases hf : f e = true
      · simp only [replayPass, he', hf, Bool.false_eq_true, if_false, if_true]
        intro x hx
        rcases List.mem_cons.1 hx with hx | hx
        · exact hx ▸ ⟨he', hf⟩
        · exact ih x hx
      · have hf' : f e = false := by simpa using hf
        simp [replayPass, he', hf']

/-- A failed reissue stops the pass: with every earlier entry either
expired (dropped unsent) or successfully reissued, the failing fresh entry
stays at the head of the remaining queue, the entries after it are left
untouched, and exactly the fresh earlier entries were sent. -/
theorem replayPass_fail_stop (now : Nat) (f : QueuedMutation → Bool)
    (e : QueuedMutation) (post : List QueuedMutation)
    (he : isExpiredEntry now e = false) (hf : f e = false) :
    ∀ pre : List QueuedMutation,
      (∀ x ∈ pre, isExpiredEntry now x = true ∨ f x = true) →
      replayPass now f (pre ++ e :: post) =
        (pre.filter (fun x => !isExpiredEntry now x), e :: post) := by
  intro pre
  induction pre with
  | nil =>
    intro _
    simp [replayPass, he, hf]
  | cons a as ih =>
    intro hpre
    have hrec := ih (fun x hx => hpre x (List.mem_cons_of_mem a hx))
    by_cases hae : isExpiredEntry now a = true
    · simp only [List.cons_append, replayPass, hae, if_true,
        List.filter_cons, Bool.not_true]
      simpa using hrec
    · have hae' : isExpiredEntry now a = false := by simpa using hae
      rcases hpre a (List.mem_cons_self a as) with ha | ha
      · exact absurd ha (by simp [hae'])
      · simp only [List.cons_append, replayPass, hae', ha, Bool.false_eq_true,
          if_false, if_true, List.filter_cons, Bool.not_false]
        simp [hrec]

/-- When every fresh entry replays successfully, the pass empties the
queue. -/
theorem replayPass_all_ok (now : Nat) (f : QueuedMutation → Bool) :
    ∀ q : List QueuedMutation,
      (∀ x ∈ q, isExpiredEntry now x = true ∨ f x = true) →
      (replayPass now f q).2 = [] := by
  intro q
  induction q with
  | nil => simp [replayPass]
  | cons e rest ih =>
    intro hq
    have hrest := ih (fun x hx => hq x (List.mem_cons_of_mem e hx))
    by_cases he : isExpiredEntry now e = true
    · simpa only [replayPass, he, if_true] using hrest
    · have he' : isExpiredEntry now e = false := by simpa using he
      rcases hq e (List.mem_cons_self e rest) with h | h
      · exact absurd h (by simp [he'])
      · simpa only [replayPass, he', h, Bool.false_eq_true, if_false,
          if_true] using hrest

/-- C5: the durable write queue is FIFO.  In one replay pass the entries
successfully reissued form a subsequence of the queue (entries queued A
then B are never replayed B then A); every reissued entry was fresh and
succeeded, and expired entries are dropped without being sent; a fresh
entry whose reissue fails stays at the head of the remaining queue and
stops the pass without touching the entries behind it; and when every
fresh entry succeeds the queue is emptied. -/
theorem replay_fifo_retention :
    ∀ (now : Nat) (fetchOk : QueuedMutation → Bool)
      (q pre post : List QueuedMutation) (e : QueuedMutation),
      (replayPass now fetchOk q).1.Sublist q ∧
      (∀ x ∈ (replayPass now fetchOk q).1,
        isExpiredEntry now x = false ∧ fetchOk x = true) ∧
      (isExpiredEntry now e = true →
        replayPass now fetchOk (e :: q) = replayPass now fetchOk q) ∧
      (q = pre ++ e :: post →
        (∀ x ∈ pre, isExpiredEntry now x = true ∨ fetchOk x = true) →
        isExpiredEntry now e = false → fetchOk e = false →
        replayPass now fetchOk q =
          (pre.filter (fun x => !isExpiredEntry now x), e :: post)) ∧
      ((∀ x ∈ q, isExpiredEntry now x = true ∨ fetchOk x = true) →
        (replayPass now fetchOk q).2 = []) := by
  intro now fetchOk q pre post e
  refine ⟨replayPass_sent_sublist now fetchOk q, replayPass_sent_ok now fetchOk q,
    ?_, ?_, replayPass_all_ok now fetchOk q⟩
  · intro he
    simp [replayPass, he]
  · intro hq hpre he hf
    exact hq ▸ replayPass_fail_stop now fetchOk e post he hf pre hpre

/-- C5 witness: a concrete pass over a two-entry fresh queue with
succeeding reissues sends both in order and empties the queue. -/
theorem replay_fifo_retention_witness :
    replayPass 1000 (fun _ => true)
      [⟨"POST", "/api/v1/contributions/", "a", 0⟩,
       ⟨"POST", "/api/v1/contributions/", "b", 1⟩] =
      ([⟨"POST", "/api/v1/contributions/", "a", 0⟩,
        ⟨"POST", "/api/v1/contributions/", "b", 1⟩], []) := by
  have h := (replay_fifo_retention 1000 (fun _ => true)
    [⟨"POST", "/api/v1/contributions/", "a", 0⟩,
     ⟨"POST", "/api/v1/contributions/", "b", 1⟩] [] []
    ⟨"POST", "/api/v1/contributions/", "a", 0⟩).2.2.2.2 (by decide)
  exact Prod.ext (by decide) h

/-! ## C6 and C9 -/

/-- Unfolding of downloadForOffline when the navigator is online. -/
theorem downloadForOffline_online (api : OfflineApi) (mediaOk : String → Bool)
    (query : List (String × PVal)) (now : Nat) (prev : Option ManifestRecord) :
    downloadForOffline true api mediaOk query now prev =
      match bundleLoop api mediaOk 5 1 0 0 with
      | (none, log) => ⟨prev, .downloadFailed, 0, log⟩
      | (some (total, warmed), log) =>
        ⟨some ⟨query, now, total⟩, .noError, warmed, log⟩ := rfl

/-- A run whose paging loop aborts reports the download error and keeps
the previously stored manifest. -/
theorem downloadForOffline_loop_none (api : OfflineApi) (mediaOk : String → Bool)
    (query : List (String × PVal)) (now : Nat) (prev : Option ManifestRecord)
    (log : List PageRequest)
    (h : bundleLoop api mediaOk 5 1 0 0 = (none, log)) :
    downloadForOffline true api mediaOk query now prev =
      ⟨prev, DownloadErr.downloadFailed, 0, log⟩ := by
  rw [downloadForOffline_online, h]

/-- A run whose paging loop completes stores the fresh manifest built from
the query, the time and the item counter. -/
theorem downloadForOffline_loop_some (api : OfflineApi) (mediaOk : String → Bool)
    (query : List (String × PVal)) (now : Nat) (prev : Option ManifestRecord)
    (total warmed : Nat) (log : List PageRequest)
    (h : bundleLoop api mediaOk 5 1 0 0 = (some (total, warmed), log)) :
    downloadForOffline true api mediaOk query now prev =
      ⟨some ⟨query, now, total⟩, DownloadErr.noError, warmed, log⟩ := by
  rw [downloadForOffline_online, h]

/-- The outcome of an online bundle download (stored manifest, error
state and request log) does not depend on which media fetches succeed. -/
theorem downloadForOffline_media_independent (api : OfflineApi)
    (m1 m2 : String → Bool) (query : List (String × PVal)) (now : Nat)
    (prev : Option ManifestRecord) :
    (downloadForOffline true api m1 query now prev).stored =
      (downloadForOffline true api m2 query now prev).stored ∧
    (downloadForOffline true api m1 query now prev).err =
      (downloadForOffline true api m2 query now prev).err ∧
    (downloadForOffline true api m1 query now prev).pageLog =
      (downloadForOffline true api m2 query now prev).pageLog := by
  have hmi := bundleLoop_media_independent api m1 m2 5 1 0 0 0
  cases hb1 : bundleLoop api m1 5 1 0 0 with
  | mk res1 log1 =>
    cases hb2 : bundleLoop api m2 5 1 0 0 with
    | mk res2 log2 =>
      rw [hb1, hb2] at hmi
      simp only at hmi
      cases res1 with
      | none =>
        cases res2 with
        | none =>
          rw [downloadForOffline_loop_none api m1 query now prev log1 hb1,
            downloadForOffline_loop_none api m2 query now prev log2 hb2]
          simp [hmi.2]
        | some tw2 => simp at hmi
      | some tw1 =>
        obtain ⟨t1, w1⟩ := tw1
        cases res2 with
        | none => simp at hmi
        | some tw2 =>
          obtain ⟨t2, w2⟩ := tw2
          have ht : t1 = t2 := by simpa using hmi.1
          subst ht
          rw [downloadForOffline_loop_some api m1 query now prev t1 w1 log1 hb1,
            downloadForOffline_loop_some api m2 query now prev t1 w2 log2 hb2]
          simp [hmi.2]

/-- C6: the online bundle download always pages with page_size 100 and
page numbers 1 to 5, issues at most five list requests, requests a page
beyond the first only when its predecessor was fetched with a next pointer
and non-empty results (early stop otherwise), stores — on completion — a
manifest whose itemCount is exactly the number of items returned by the
pages actually requested, overwriting any prior manifest, and — when the
server honours the page size — never stores an itemCount above 500;
everything observable except the warmed-media counter is unaffected by
individual media-fetch failures. -/
theorem bundle_bounded_paging :
    ∀ (api : OfflineApi) (mediaOk : String → Bool)
      (query : List (String × PVal)) (now : Nat)
      (prev : Option ManifestRecord),
      (∀ pr ∈ (downloadForOffline true api mediaOk query now prev).pageLog,
        pr.pageSize = 100 ∧ 1 ≤ pr.page ∧ pr.page ≤ 5) ∧
      (downloadForOffline true api mediaOk query now prev).pageLog.length ≤ 5 ∧
      (∀ pr ∈ (downloadForOffline true api mediaOk query now prev).pageLog,
        pr.page = 1 ∨
        ∃ d, api.listPage (pr.page - 1) = .ok d ∧ d.hasNext = true ∧
          d.results.isEmpty = false) ∧
      ((downloadForOffline true api mediaOk query now prev).err =
          DownloadErr.noError →
        (downloadForOffline true api mediaOk query now prev).stored =
          some ⟨query, now,
            (((downloadForOffline true api mediaOk query now prev).pageLog).map
              (fun pr => resultsLenAt api pr.page)).sum⟩) ∧
      ((∀ p d, api.listPage p = .ok d → d.results.length ≤ 100) →
        ∀ mani,
          (downloadForOffline true api mediaOk query now prev).stored =
            some mani →
          (downloadForOffline true api mediaOk query now prev).err =
            DownloadErr.noError →
          mani.itemCount ≤ 500) ∧
      (∀ mediaOk2 : String → Bool,
        (downloadForOffline true api mediaOk2 query now prev).stored =
          (downloadForOffline true api mediaOk query now prev).stored ∧
        (downloadForOffline true api mediaOk2 query now prev).err =
          (downloadForOffline true api mediaOk query now prev).err ∧
        (downloadForOffline true api mediaOk2 query now prev).pageLog =
          (downloadForOffline true api mediaOk query now prev).pageLog) := by
  intro api mediaOk query now prev
  have hpages := bundleLoop_log_pages api mediaOk 5 1 0 0
  have hlen := bundleLoop_log_length api mediaOk 5 1 0 0
  have hchain := bundleLoop_log_chain api mediaOk 5 1 0 0
  have hmedia : ∀ mediaOk2 : String → Bool,
      (downloadForOffline true api mediaOk2 query now prev).stored =
        (downloadForOffline true api mediaOk query now prev).stored ∧
      (downloadForOffline true api mediaOk2 query now prev).err =
        (downloadForOffline true api mediaOk query now prev).err ∧
      (downloadForOffline true api mediaOk2 query now prev).pageLog =
        (downloadForOffline true api mediaOk query now prev).pageLog :=
    fun mediaOk2 =>
      downloadForOffline_media_independent api mediaOk2 mediaOk query now prev
  cases hb : bundleLoop api mediaOk 5 1 0 0 with
  | mk res log =>
    have hlog : (bundleLoop api mediaOk 5 1 0 0).2 = log := by rw [hb]
    rw [hlog] at hpages hlen hchain
    cases res with
    | none =>
      have hd := downloadForOffline_loop_none api mediaOk query now prev log hb
      refine ⟨?_, ?_, ?_, ?_, ?_, hmedia⟩
      · intro pr hpr
        rw [hd] at hpr
        have h := hpages pr hpr
        exact ⟨h.1, h.2.1, by omega⟩
      · rw [hd]
        exact hlen
      · intro pr hpr
        rw [hd] at hpr
        exact hchain pr hpr
      · intro h
        rw [hd] at h
        simp at h
      · intro _ mani _ herr
        rw [hd] at herr
        simp at herr
    | some tw =>
      obtain ⟨total, warmed⟩ := tw
      have hd := downloadForOffline_loop_some api mediaOk query now prev total
        warmed log hb
      have hres1 : (bundleLoop api mediaOk 5 1 0 0).1 = some (total, warmed) := by
        rw [hb]
      have hcount := bundleLoop_count api mediaOk 5 1 0 0 total warmed hres1
      rw [hlog] at hcount
      refine ⟨?_, ?_, ?_, ?_, ?_, hmedia⟩
      · intro pr hpr
        rw [hd] at hpr
        have h := hpages pr hpr
        exact ⟨h.1, h.2.1, by omega⟩
      · rw [hd]
        exact hlen
      · intro pr hpr
        rw [hd] at hpr
        exact hchain pr hpr
      · intro _
        rw [hd]
        simp only [DownloadOutcome.stored, DownloadOutcome.pageLog,
          Option.some.injEq]
        rw [hcount]
        simp
      · intro hbound mani hmani _
        rw [hd] at hmani
        have hterm : ∀ x ∈ (log.map (fun pr => resultsLenAt api pr.page)),
            x ≤ 100 := by
          intro x hx
          rcases List.mem_map.1 hx with ⟨pr, hpr, rfl⟩
          unfold resultsLenAt
          cases hlp : api.listPage pr.page with
          | error e => simp
          | ok d => simpa using hbound _ _ hlp
        have hsum := List.sum_le_card_nsmul _ 100 hterm
        rw [List.length_map, smul_eq_mul] at hsum
        have hmani' : mani = ⟨query, now, total⟩ := by
          simpa using hmani.symm
        rw [hmani']
        simp only []
        omega

/-- C6 witness: against a one-item single-page server the download stores
the manifest with itemCount 1. -/
theorem bundle_bounded_paging_witness :
    (downloadForOffline true
      ⟨fun _ => .ok ⟨[⟨1⟩], false⟩, fun _ => .ok ⟨none, [], [], [], []⟩⟩
      (fun _ => true) [] 99 none).stored = some ⟨[], 99, 1⟩ := by
  have h := (bundle_bounded_paging
    ⟨fun _ => .ok ⟨[⟨1⟩], false⟩, fun _ => .ok ⟨none, [], [], [], []⟩⟩
    (fun _ => true) [] 99 none).2.2.2.1 rfl
  simpa using h

/-- C9: when the paging loop aborts (a list-page or detail fetch threw),
the download reports the user-visible download error and leaves the
previously stored manifest unchanged; a thrown first-page fetch aborts the
loop, and so does a thrown detail fetch of any item of the first page. -/
theorem bundle_error_preserves_manifest :
    ∀ (api : OfflineApi) (mediaOk : String → Bool)
      (query : List (String × PVal)) (now : Nat)
      (prev : Option ManifestRecord),
      ((bundleLoop api mediaOk 5 1 0 0).1 = none →
        (downloadForOffline true api mediaOk query now prev).stored = prev ∧
        (downloadForOffline true api mediaOk query now prev).err =
          DownloadErr.downloadFailed) ∧
      (api.listPage 1 = .error () → (bundleLoop api mediaOk 5 1 0 0).1 = none) ∧
      (∀ d it, api.listPage 1 = .ok d → it ∈ d.results →
        api.detail it.id = .error () →
        (bundleLoop api mediaOk 5 1 0 0).1 = none) := by
  intro api mediaOk query now prev
  refine ⟨?_, ?_, ?_⟩
  · intro hres
    cases hb : bundleLoop api mediaOk 5 1 0 0 with
    | mk res log =>
      rw [hb] at hres
      simp only at hres
      subst hres
      rw [downloadForOffline_loop_none api mediaOk query now prev log hb]
      exact ⟨rfl, rfl⟩
  · intro h
    exact bundleLoop_error_of_listPage_error api mediaOk 4 1 0 0 h
  · intro d it hl hit hd
    have hp := processPageItems_error_of_detail_error api mediaOk d.results
      it hit hd 0 0
    show (bundleLoop api mediaOk (4 + 1) 1 0 0).1 = none
    simp [bundleLoop, hl, hp]

/-- C9 witness: against a server whose list endpoint throws, the download
leaves the concrete prior manifest in place. -/
theorem bundle_error_preserves_manifest_witness :
    (downloadForOffline true ⟨fun _ => .error (), fun _ => .error ()⟩
      (fun _ => true) [] 5 (some ⟨[], 0, 7⟩)).stored = some ⟨[], 0, 7⟩ := by
  have hth := bundle_error_preserves_manifest
    ⟨fun _ => .error (), fun _ => .error ()⟩ (fun _ => true) [] 5
    (some ⟨[], 0, 7⟩)
  exact (hth.1 (hth.2.1 rfl)).1

/-! ## C7 -/

/-- An optional single-entry chunk of the snapshot keeps its key within
the fixed key order. -/
theorem chunk_sublist (c : Prop) [Decidable c] (k : String) (v : PVal) :
    ((if c then [(k, v)] else []).map Prod.fst).Sublist [k] := by
  by_cases h : c
  · rw [if_pos h]
    simp only [List.map_cons, List.map_nil]
    exact List.Sublist.refl _
  · rw [if_neg h]
    simp only [List.map_nil]
    exact List.nil_sublist _

/-- C7 counterexample: the snapshot of a filter state with a parish filter
produces the keys parish then ordering — insertion order, not sorted order
(ordering precedes parish alphabetically), refuting that the query
signature serializes with sorted keys. -/
theorem snapshot_keys_not_sorted :
    ((currentQuerySnapshot ⟨"", "", "", "3", "", "-created_at"⟩).map Prod.fst =
      ["parish", "ordering"]) ∧
    ¬ ((currentQuerySnapshot ⟨"", "", "", "3", "", "-created_at"⟩).map
        Prod.fst).Sorted (· ≤ ·) := by
  have hkeys : (currentQuerySnapshot ⟨"", "", "", "3", "", "-created_at"⟩).map
      Prod.fst = ["parish", "ordering"] := by decide
  refine ⟨hkeys, ?_⟩
  rw [hkeys]
  intro h
  have hle := List.rel_of_sorted_cons h "ordering" (by simp)
  rw [String.le_iff_toList_le] at hle
  exact absurd hle (by decide)

/-- C7 amended: the query signature serializes the filter parameters in
the fixed insertion order of the snapshot (a subsequence of search,
heritage_type, heritage_category, parish, ordering, then the media flags),
with empty values omitted and pagination parameters never present; the
has-offline-copy check is false when nothing is stored, and otherwise true
exactly when the serialization of the stored query equals the
serialization of the current snapshot. -/
theorem snapshot_insertion_order_and_exact_match :
    (∀ st : FilterState,
      ((currentQuerySnapshot st).map Prod.fst).Sublist snapshotKeyOrder) ∧
    (∀ st : FilterState,
      "page" ∉ (currentQuerySnapshot st).map Prod.fst ∧
      "page_size" ∉ (currentQuerySnapshot st).map Prod.fst) ∧
    (∀ st : FilterState, hasOfflineBundleForCurrentQuery none st = false) ∧
    (∀ (m : ManifestRecord) (st : FilterState),
      hasOfflineBundleForCurrentQuery (some m) st = true ↔
        serializeParams m.query = serializeParams (currentQuerySnapshot st)) := by
  have hsub : ∀ st : FilterState,
      ((currentQuerySnapshot st).map Prod.fst).Sublist snapshotKeyOrder := by
    intro st
    have hkey : snapshotKeyOrder =
        ["search"] ++ ["heritage_type"] ++ ["heritage_category"] ++
        ["parish"] ++ ["ordering"] ++ ["has_images"] ++ ["has_audio"] ++
        ["has_video"] ++ ["has_documents"] ++ ["text_only"] := rfl
    rw [hkey]
    unfold currentQuerySnapshot
    simp only [List.map_append]
    exact (((((((((chunk_sublist _ _ _).append
      (chunk_sublist _ _ _)).append
      (chunk_sublist _ _ _)).append
      (chunk_sublist _ _ _)).append
      (chunk_sublist _ _ _)).append
      (chunk_sublist _ _ _)).append
      (chunk_sublist _ _ _)).append
      (chunk_sublist _ _ _)).append
      (chunk_sublist _ _ _)).append
      (chunk_sublist _ _ _)
  refine ⟨hsub, ?_, fun st => rfl, ?_⟩
  · intro st
    constructor
    · intro hmem
      exact absurd ((hsub st).subset hmem) (by decide)
    · intro hmem
      exact absurd ((hsub st).subset hmem) (by decide)
  · intro m st
    simp [hasOfflineBundleForCurrentQuery]

/-- C7 amended, witness: the stored query equal to the current snapshot is
recognised as an offline copy. -/
theorem snapshot_insertion_order_and_exact_match_witness :
    hasOfflineBundleForCurrentQuery
      (some ⟨[("parish", PVal.s "3"), ("ordering", PVal.s "-created_at")], 0, 1⟩)
      ⟨"", "", "", "3", "", "-created_at"⟩ = true :=
  (snapshot_insertion_order_and_exact_match.2.2.2
    ⟨[("parish", PVal.s "3"), ("ordering", PVal.s "-created_at")], 0, 1⟩
    ⟨"", "", "", "3", "", "-created_at"⟩).mpr (by decide)

end HeritagePlatform
